import Mathlib

/-!
Shallow embedding of the wasi-nn-edge-demo pipeline (src/src/lib.rs) and
proofs of its specified properties.

The Rust source converts an incoming `DataWindow` of timestamped, mixed-type
observations into a fixed-shape `f32` tensor (sort by optional timestamp,
drop string values, resize to `HISTORY_LEN` with `0.0` padding, replicate
`NUM_BATCHES` times), runs the model, and converts the output tensor back
into predicted points (shape check, take batch 0, wrap each value).

Modelling notes:
* `f32` values are only moved, filtered, copied and compared for equality by
  the pipeline — never computed with — so the scalar carrier is an abstract
  type `α` (instantiated with `Int` in concrete witnesses).  The `0f32`
  padding element is `(0 : α)` via a `Zero α` instance.
* Timestamps are an ordered scalar; we use `Int`.  The Rust field has type
  `Option<Timestamp>`, and `sort_by_key` uses Rust's derived `Ord` on
  `Option`, under which `None` is less than every `Some`.
* Rust's `slice::sort_by_key` is a stable sort; any stable sort computes the
  same output, so we embed it as `List.insertionSort` (also stable: it
  inserts each earlier element in front of all later tie-mates).
* The `interface` data types and `Tensor::try_into` come from the demo
  library `wasi_nn_demo_lib`, whose code is not part of this repository;
  they are modelled from the spec where so marked.
-/

set_option maxRecDepth 8000

deriving instance DecidableEq for Except

namespace WasiNN

/-- Modelled from the spec: an observation value is
`Number(float) | String(text)` (spec §3, `interface::Value` in the demo
library). -/
inductive Value (α : Type) where
  | Number : α → Value α
  | String : String → Value α
deriving DecidableEq

/-- Modelled from the spec: an observation
`{ timestamp: optional ordered scalar, value, quality: optional annot }`
(spec §3, `interface::DataPoint` in the demo library). -/
structure DataPoint (α : Type) where
  timestamp : Option Int
  value : Value α
  quality : Option String
deriving DecidableEq

/-- Modelled from the spec: a `DataWindow` is an unordered mapping from an
opaque key to an observation (spec §3); we carry the map as an association
list in its iteration order, since the source only ever iterates
`input.data.values()`. -/
structure DataWindow (α : Type) where
  data : List (String × DataPoint α)
deriving DecidableEq

/-- `input.data.values()`: the observations in the map's iteration order. -/
def DataWindow.values {α : Type} (w : DataWindow α) : List (DataPoint α) :=
  w.data.map Prod.snd

/-- Modelled from the spec: the result returned to the response encoder,
tagged as predicted values (spec §3/§6, `interface::InferenceResult` in the
demo library). -/
inductive InferenceResult (α : Type) where
  | PredictedValues : List (DataPoint α) → InferenceResult α
deriving DecidableEq

/-- The wasi-http error code type as used by the source: every failure is
reported as `ErrorCode::InternalError(Some(message))` (spec §6: a single
generic internal-error code with a descriptive message). -/
inductive ErrorCode where
  | InternalError : Option String → ErrorCode
deriving DecidableEq

/-- A tensor is a flat buffer plus a shape descriptor (`Tensor::new(data, dims)`
in the source). -/
structure Tensor (α : Type) where
  data : List α
  dims : List Nat
deriving DecidableEq

/-- `Tensor::new` from the demo library: pairs a buffer with its dims. -/
def Tensor.new {α : Type} (data : List α) (dims : List Nat) : Tensor α :=
  ⟨data, dims⟩

/-- `const NUM_BATCHES: u32 = 16` -/
def NUM_BATCHES : Nat := 16

/-- `const HISTORY_LEN: u32 = 128` -/
def HISTORY_LEN : Nat := 128

/-- `const PREDICTION_LEN: u32 = 24` -/
def PREDICTION_LEN : Nat := 24

/-- Rust's derived `Ord` on `Option<T>` (the `sort_by_key` key order):
`None` compares less than every `Some`, and `Some x ≤ Some y ↔ x ≤ y`. -/
def tsLE : Option Int → Option Int → Prop
  | none, _ => True
  | some _, none => False
  | some x, some y => x ≤ y

instance : DecidableRel tsLE := fun a b =>
  match a, b with
  | none, _ => isTrue trivial
  | some _, none => isFalse (fun h => h)
  | some x, some y => inferInstanceAs (Decidable (x ≤ y))

instance : IsTotal (Option Int) tsLE where
  total a b :=
    match a, b with
    | none, _ => Or.inl trivial
    | some _, none => Or.inr trivial
    | some x, some y => (le_total x y).imp id id

instance : IsTrans (Option Int) tsLE where
  trans a b c hab hbc :=
    match a, b, c, hab, hbc with
    | none, _, _, _, _ => trivial
    | some _, some _, some _, hab, hbc => le_trans hab hbc

/-- The sort key order on data points:
`sort_by_key(|data_point| data_point.timestamp)`. -/
def byTimestamp {α : Type} (a b : DataPoint α) : Prop :=
  tsLE a.timestamp b.timestamp

instance {α : Type} : DecidableRel (byTimestamp (α := α)) := fun a b =>
  inferInstanceAs (Decidable (tsLE a.timestamp b.timestamp))

instance {α : Type} : IsTotal (DataPoint α) byTimestamp where
  total a b := IsTotal.total (r := tsLE) a.timestamp b.timestamp

instance {α : Type} : IsTrans (DataPoint α) byTimestamp where
  trans a b c hab hbc := IsTrans.trans (r := tsLE) _ _ _ hab hbc

/-- The `filter_map` body: keep `Number(num)` as `num`, drop `String(_)`. -/
def numericValue {α : Type} (data_point : DataPoint α) : Option α :=
  match data_point.value with
  | Value.Number num => some num
  | Value.String _ => none

/-- `Vec::resize(n, v)`: truncate to `n` elements if longer, otherwise
append copies of `v` up to length `n`. -/
def listResize {α : Type} (l : List α) (n : Nat) (v : α) : List α :=
  l.take n ++ List.replicate (n - l.length) v

/-- `slice::repeat(n)`: the list concatenated with itself `n` times. -/
def listRepeat {α : Type} (l : List α) (n : Nat) : List α :=
  (List.replicate n l).flatten

/-- `let mut sorted_data_points: Vec<_> = input.data.values().collect();`
`sorted_data_points.sort_by_key(|data_point| data_point.timestamp);`
(stable sort embedded as insertion sort, see the header note). -/
def sorted_data_points {α : Type} (input : DataWindow α) : List (DataPoint α) :=
  (input.values).insertionSort byTimestamp

/-- `let mut single_data_series: Vec<_> = sorted_data_points.into_iter()
.filter_map(...).collect();` — keep numeric values, drop strings. -/
def single_data_series {α : Type} (input : DataWindow α) : List α :=
  (sorted_data_points input).filterMap numericValue

/-- `single_data_series.resize(HISTORY_LEN as usize, 0f32);` -/
def forced_series {α : Type} [Zero α] (input : DataWindow α) : List α :=
  listResize (single_data_series input) HISTORY_LEN 0

/-- `let all_data_series = single_data_series.repeat(NUM_BATCHES as usize);` -/
def all_data_series {α : Type} [Zero α] (input : DataWindow α) : List α :=
  listRepeat (forced_series input) NUM_BATCHES

/-- `fn tensor_from_data_window(input) -> Result<Tensor<f32>, ErrorCode>`:
sort, filter, resize, replicate, and package with dims
`[NUM_BATCHES, HISTORY_LEN, 1]`.  The source has no failing path. -/
def tensor_from_data_window {α : Type} [Zero α] (input : DataWindow α) :
    Except ErrorCode (Tensor α) :=
  Except.ok (Tensor.new (all_data_series input) [NUM_BATCHES, HISTORY_LEN, 1])

/-- The shape-mismatch error raised when the output buffer does not fit
`[[f32; PREDICTION_LEN]; NUM_BATCHES]` (spec §7: reported through the single
generic internal-error code with a descriptive message). -/
def shapeMismatch : ErrorCode :=
  ErrorCode.InternalError (some "shape mismatch")

/-- Modelled from the spec: `tensor.try_into()` reinterpreting the flat
buffer as `[[f32; PREDICTION_LEN]; NUM_BATCHES]` comes from the demo
library, whose code is not in this repository.  Per spec §4.4 it fails with
a shape-mismatch error iff the buffer length differs from
`batchCount * predictionLength`, and otherwise yields the row-major batches. -/
def tryIntoBatches {α : Type} (t : Tensor α) :
    Except ErrorCode (List (List α)) :=
  if t.data.length = NUM_BATCHES * PREDICTION_LEN then
    Except.ok ((List.range NUM_BATCHES).map fun b =>
      (t.data.drop (b * PREDICTION_LEN)).take PREDICTION_LEN)
  else
    Except.error shapeMismatch

/-- `fn inference_result_from_tensor(tensor) -> Result<InferenceResult, ErrorCode>`:
reinterpret as batches, take `predictions[0]` (the head; `tryIntoBatches`
always yields `NUM_BATCHES` rows when it succeeds), and map each value to a
`DataPoint` with no quality and no timestamp. -/
def inference_result_from_tensor {α : Type} (tensor : Tensor α) :
    Except ErrorCode (InferenceResult α) := do
  let predictions ← tryIntoBatches tensor
  let data_points := (predictions.headD []).map fun value =>
    DataPoint.mk none (Value.Number value) none
  Except.ok (InferenceResult.PredictedValues data_points)

/-- The abstract inference backend used by `handle_data`: graph building
from the fixed model files, execution-context creation, and a run of the
single named input to the single named output (spec §4.3, an external
collaborator treated as opaque).  `G` and `C` are the opaque graph and
execution-context types. -/
structure Backend (α G C : Type) where
  buildGraph : Except ErrorCode G
  initExecutionContext : G → Except ErrorCode C
  run : C → Tensor α → Except ErrorCode (Tensor α)

/-- `fn handle_data(&mut self, input) -> Result<InferenceResult, ErrorCode>`:
build the graph, create the execution context, encode the window, run the
model, decode the output — each step short-circuiting with `?`. -/
def handle_data {α G C : Type} [Zero α] (bk : Backend α G C)
    (input : DataWindow α) : Except ErrorCode (InferenceResult α) := do
  let graph ← bk.buildGraph
  let ctx ← bk.initExecutionContext graph
  let input_tensor ← tensor_from_data_window input
  let output_tensor ← bk.run ctx input_tensor
  inference_result_from_tensor output_tensor

/-- `struct HttpHandler {}` — the handler carries no fields, so there is no
state a request could read or write. -/
structure HttpHandler where
deriving DecidableEq

/-- `HttpHandler::handle_data` takes `&mut self`; we model the method as
explicit state passing, returning the (unchanged, since there are no
fields) handler together with the pipeline result. -/
def HttpHandler.handleData {α G C : Type} [Zero α] (self : HttpHandler)
    (bk : Backend α G C) (input : DataWindow α) :
    HttpHandler × Except ErrorCode (InferenceResult α) :=
  (self, handle_data bk input)

/-- `Guest::handle` for `Component`: acquire the handler lock, map a lock
failure to `ErrorCode::InternalError(Some("Error locking state: {e}"))`,
otherwise delegate to the library's `handle_request`, and in every case
call `ResponseOutparam::set` once with the result.  `lockResult` stands for
`HANDLER.lock()` (a poisoned mutex yields an error message `e`);
`handleRequest` stands for the library's `handle_request`, which is not in
this repository and is kept abstract; `R` is the outgoing-response type.
The returned list records the `ResponseOutparam::set` calls in order. -/
def Component.handle {R : Type} (lockResult : Except String HttpHandler)
    (handleRequest : HttpHandler → Except ErrorCode R) :
    List (Except ErrorCode R) :=
  let response :=
    match lockResult with
    | Except.error e =>
        Except.error (ErrorCode.InternalError (some ("Error locking state: " ++ e)))
    | Except.ok handler => handleRequest handler
  [response]

/-- Scenario A input: a window of 130 numeric points timestamped `1..130`
(the value of the point timestamped `k` is `k`). -/
def window130 : DataWindow Int :=
  ⟨(List.range 130).map fun k =>
    (toString k, ⟨some ((k : Int) + 1), Value.Number ((k : Int) + 1), none⟩)⟩

/-- A concrete well-shaped output tensor (buffer `0..383`, shape `[16,24,1]`)
used to exercise the decoder theorems. -/
def tensor384 : Tensor Int :=
  ⟨(List.range (NUM_BATCHES * PREDICTION_LEN)).map Int.ofNat,
    [NUM_BATCHES, PREDICTION_LEN, 1]⟩

/-- A concrete badly-shaped output tensor (buffer of 100 zeros instead of
`16 * 24 = 384`) used to exercise the decoder failure theorem. -/
def tensor100 : Tensor Int :=
  ⟨List.replicate 100 0, [NUM_BATCHES, PREDICTION_LEN, 1]⟩

/-- A concrete backend whose graph build fails (model file missing), used to
exercise the short-circuiting theorems. -/
def failingBackend : Backend Int Unit Unit :=
  ⟨Except.error (ErrorCode.InternalError (some "model file missing")),
    fun _ => Except.ok (), fun _ t => Except.ok t⟩

/-! ## Helper lemmas -/

theorem length_listResize {α : Type} (l : List α) (n : Nat) (v : α) :
    (listResize l n v).length = n := by
  simp only [listResize, List.length_append, List.length_take, List.length_replicate]
  omega

theorem getD_listResize {α : Type} (l : List α) (n : Nat) (v : α) (i : Nat)
    (h : i < n) :
    (listResize l n v).getD i v = if i < l.length then l.getD i v else v := by
  rcases Nat.lt_or_ge i l.length with hlt | hge
  · rw [if_pos hlt]
    simp only [listResize, List.getD_eq_getElem?_getD, List.getElem?_append,
      List.length_take, List.getElem?_take]
    rw [if_pos (lt_min h hlt), if_pos h, List.getElem?_eq_getElem hlt]
  · have hln : l.length < n := Nat.lt_of_le_of_lt hge h
    have hmin : n ⊓ l.length = l.length := min_eq_right (Nat.le_of_lt hln)
    rw [if_neg (by omega)]
    simp only [listResize, List.getD_eq_getElem?_getD, List.getElem?_append,
      List.length_take, List.getElem?_replicate, hmin]
    rw [if_neg (by omega), if_pos (by omega)]
    rfl

theorem listRepeat_succ {α : Type} (l : List α) (n : Nat) :
    listRepeat l (n + 1) = l ++ listRepeat l n := by
  simp [listRepeat, List.replicate_succ]

theorem length_listRepeat {α : Type} (l : List α) (n : Nat) :
    (listRepeat l n).length = n * l.length := by
  induction n with
  | zero => simp [listRepeat]
  | succ m ih =>
      rw [listRepeat_succ, List.length_append, ih, Nat.succ_mul, Nat.add_comm]

theorem slice_listRepeat {α : Type} (l : List α) (b : Nat) :
    ∀ n : Nat, b < n →
      ((listRepeat l n).drop (b * l.length)).take l.length = l := by
  induction b with
  | zero =>
      intro n hn
      obtain ⟨m, rfl⟩ := Nat.exists_eq_succ_of_ne_zero (Nat.pos_iff_ne_zero.mp hn)
      rw [Nat.zero_mul, List.drop_zero, listRepeat_succ, List.take_left]
  | succ b ih =>
      intro n hn
      obtain ⟨m, rfl⟩ := Nat.exists_eq_succ_of_ne_zero
        (Nat.pos_iff_ne_zero.mp (Nat.lt_of_le_of_lt (Nat.zero_le _) hn))
      rw [listRepeat_succ, Nat.succ_mul, Nat.add_comm, List.drop_append,
        ih m (Nat.lt_of_succ_lt_succ hn)]

theorem listRepeat_replicate {α : Type} (m : Nat) (a : α) :
    ∀ n : Nat, listRepeat (List.replicate m a) n = List.replicate (n * m) a := by
  intro n
  induction n with
  | zero => simp [listRepeat]
  | succ k ih =>
      rw [listRepeat_succ, ih, List.append_replicate_replicate, Nat.succ_mul,
        Nat.add_comm]

theorem length_forced_series {α : Type} [Zero α] (w : DataWindow α) :
    (forced_series w).length = HISTORY_LEN :=
  length_listResize _ _ _

theorem single_data_series_perm {α : Type} (w : DataWindow α) :
    (single_data_series w).Perm (w.values.filterMap numericValue) :=
  List.Perm.filterMap numericValue (List.perm_insertionSort byTimestamp w.values)

theorem sorted_data_points_sorted {α : Type} (w : DataWindow α) :
    (sorted_data_points w).Sorted byTimestamp :=
  List.sorted_insertionSort byTimestamp w.values

theorem sorted_data_points_perm {α : Type} (w : DataWindow α) :
    (sorted_data_points w).Perm w.values :=
  List.perm_insertionSort byTimestamp w.values

/-! ## Claim theorems -/

/-- C1: for every DataWindow with at least one numeric observation, the
normalized series (`single_data_series`) is exactly the numeric values of
the observations taken in an order that is ascending by timestamp (a
permutation of the window's observations sorted under the optional
timestamp order), string-valued observations are dropped without error, and
no gaps remain: the length equals the number of numeric observations. -/
theorem normalize_exactly_numeric_sorted {α : Type} (w : DataWindow α)
    (h : 0 < (w.values.filterMap numericValue).length) :
    single_data_series w ≠ [] ∧
    (single_data_series w).length = (w.values.filterMap numericValue).length ∧
    ∃ obs : List (DataPoint α),
      obs.Perm w.values ∧ obs.Sorted byTimestamp ∧
      single_data_series w = obs.filterMap numericValue := by
  have hlen : (single_data_series w).length =
      (w.values.filterMap numericValue).length :=
    (single_data_series_perm w).length_eq
  refine ⟨?_, hlen, sorted_data_points w, sorted_data_points_perm w,
    sorted_data_points_sorted w, rfl⟩
  intro hnil
  rw [hnil] at hlen
  simp only [List.length_nil] at hlen
  omega

/-- C1 witness: a window with three numeric and one string observation. -/
theorem normalize_exactly_numeric_sorted_witness :
    0 < ((DataWindow.values (α := Int)
        ⟨[("a", ⟨some 3, Value.Number 30, none⟩),
          ("b", ⟨some 1, Value.Number 10, none⟩),
          ("c", ⟨some 2, Value.String "x", none⟩),
          ("d", ⟨none, Value.Number 99, none⟩)]⟩).filterMap numericValue).length ∧
    single_data_series (α := Int)
        ⟨[("a", ⟨some 3, Value.Number 30, none⟩),
          ("b", ⟨some 1, Value.Number 10, none⟩),
          ("c", ⟨some 2, Value.String "x", none⟩),
          ("d", ⟨none, Value.Number 99, none⟩)]⟩ ≠ [] :=
  ⟨by decide,
    (normalize_exactly_numeric_sorted (α := Int)
      ⟨[("a", ⟨some 3, Value.Number 30, none⟩),
        ("b", ⟨some 1, Value.Number 10, none⟩),
        ("c", ⟨some 2, Value.String "x", none⟩),
        ("d", ⟨none, Value.Number 99, none⟩)]⟩ (by decide)).1⟩

/-- C9: in the sorted observation list, every observation with an absent
timestamp precedes every observation with a present timestamp: if a later
position has an absent timestamp, so does every earlier position (Rust's
`Option` order puts `None` below every `Some`). -/
theorem absent_timestamps_sort_first {α : Type} (w : DataWindow α)
    (i j : Fin (sorted_data_points w).length) (hij : i < j)
    (hnone : ((sorted_data_points w).get j).timestamp = none) :
    ((sorted_data_points w).get i).timestamp = none := by
  have hrel : byTimestamp ((sorted_data_points w).get i)
      ((sorted_data_points w).get j) :=
    (sorted_data_points_sorted w).rel_get_of_lt hij
  unfold byTimestamp at hrel
  rw [hnone] at hrel
  cases hts : ((sorted_data_points w).get i).timestamp with
  | none => rfl
  | some x => rw [hts] at hrel; exact absurd hrel (by simp [tsLE])

/-- C9 witness: a two-point window where the `None`-timestamp observation
ends up at position 0 and position 1 holds a present timestamp; applying the
theorem at positions 0 < 1 of a window sorted to `[none, none]`. -/
theorem absent_timestamps_sort_first_witness :
    ((sorted_data_points (α := Int)
      ⟨[("a", ⟨none, Value.Number 1, none⟩),
        ("b", ⟨none, Value.Number 2, none⟩)]⟩).get
          ⟨0, by decide⟩).timestamp = none :=
  absent_timestamps_sort_first (α := Int)
    ⟨[("a", ⟨none, Value.Number 1, none⟩),
      ("b", ⟨none, Value.Number 2, none⟩)]⟩
    ⟨0, by decide⟩ ⟨1, by decide⟩ (by decide) (by decide)

/-- C7: the window-to-tensor conversion never returns an error: for every
DataWindow it yields a tensor with dims `[16, 128, 1]`, and when the window
has no numeric observation (empty, or all string-valued) the buffer is all
zeros of length `16 * 128`. -/
theorem tensor_from_data_window_total {α : Type} [Zero α] (w : DataWindow α) :
    ∃ t : Tensor α, tensor_from_data_window w = Except.ok t ∧
      t.dims = [NUM_BATCHES, HISTORY_LEN, 1] ∧
      (w.values.filterMap numericValue = [] →
        t.data = List.replicate (NUM_BATCHES * HISTORY_LEN) (0 : α)) := by
  refine ⟨Tensor.new (all_data_series w) [NUM_BATCHES, HISTORY_LEN, 1], rfl, rfl, ?_⟩
  intro hnone
  have hempty : single_data_series w = [] := by
    have := (single_data_series_perm w).length_eq
    rw [hnone] at this
    exact List.eq_nil_of_length_eq_zero this
  show all_data_series w = _
  rw [all_data_series, forced_series, hempty]
  show listRepeat (List.replicate (HISTORY_LEN - 0) (0 : α)) NUM_BATCHES = _
  rw [listRepeat_replicate, Nat.sub_zero]

/-- C7 witness: the empty window yields the all-zero tensor. -/
theorem tensor_from_data_window_total_witness :
    ∃ t : Tensor Int, tensor_from_data_window (α := Int) ⟨[]⟩ = Except.ok t ∧
      t.dims = [NUM_BATCHES, HISTORY_LEN, 1] ∧
      t.data = List.replicate (NUM_BATCHES * HISTORY_LEN) (0 : Int) := by
  obtain ⟨t, h1, h2, h3⟩ := tensor_from_data_window_total (α := Int) ⟨[]⟩
  exact ⟨t, h1, h2, h3 rfl⟩

/-- C2: the encoder forces the series to exactly `HISTORY_LEN` elements —
element `i` is the `i`-th series value when `i < series.length` and `0`
otherwise (so a series longer than `HISTORY_LEN` is silently truncated, not
an error); `forced_series` is exactly this resize applied to the normalized
series; and Scenario A: the 130-point window timestamped `1..130` yields a
tensor of total length 2048 whose forced series is the first 128 values
`1..128` (the 2 most recent values are dropped). -/
theorem encode_pad_truncate {α : Type} [Zero α] (series : List α) :
    (listResize series HISTORY_LEN (0 : α)).length = HISTORY_LEN ∧
    (∀ i, i < HISTORY_LEN →
      (listResize series HISTORY_LEN (0 : α)).getD i 0 =
        if i < series.length then series.getD i 0 else 0) ∧
    (∀ w : DataWindow α,
      forced_series w = listResize (single_data_series w) HISTORY_LEN 0) ∧
    (∃ t : Tensor Int, tensor_from_data_window window130 = Except.ok t ∧
      t.data.length = 2048 ∧
      (single_data_series window130).length = 130 ∧
      forced_series window130 = (List.range 128).map fun k => (k : Int) + 1) := by
  refine ⟨length_listResize _ _ _, fun i hi => getD_listResize _ _ _ i hi,
    fun w => rfl, Tensor.new (all_data_series window130) _, rfl, ?_, ?_, ?_⟩
  · show (listRepeat (forced_series window130) NUM_BATCHES).length = 2048
    rw [length_listRepeat, length_forced_series]
    decide
  · decide
  · decide

/-- C2 witness: the length and per-index law at the concrete series `[7]`
and index `0`, and Scenario A through the theorem itself. -/
theorem encode_pad_truncate_witness :
    (listResize [(7 : Int)] HISTORY_LEN 0).length = HISTORY_LEN ∧
    ((listResize [(7 : Int)] HISTORY_LEN 0).getD 0 0 =
      if 0 < [(7 : Int)].length then [(7 : Int)].getD 0 0 else 0) ∧
    ∃ t : Tensor Int, tensor_from_data_window window130 = Except.ok t ∧
      t.data.length = 2048 :=
  ⟨(encode_pad_truncate [(7 : Int)]).1,
    (encode_pad_truncate [(7 : Int)]).2.1 0 (by decide),
    ((encode_pad_truncate [(7 : Int)]).2.2.2).elim fun t h =>
      ⟨t, h.1, h.2.1⟩⟩

/-- C3: for every DataWindow the encoder yields a tensor whose buffer
length is `NUM_BATCHES * HISTORY_LEN = 2048`, equal to the product of its
shape descriptor `[16, 128, 1]`, and every one of the 16 batch slices of
length 128 equals the single forced series. -/
theorem encode_shape_and_batches {α : Type} [Zero α] (w : DataWindow α) :
    ∃ t : Tensor α, tensor_from_data_window w = Except.ok t ∧
      t.data.length = NUM_BATCHES * HISTORY_LEN ∧
      t.dims = [NUM_BATCHES, HISTORY_LEN, 1] ∧
      t.data.length = t.dims.prod ∧
      ∀ b, b < NUM_BATCHES →
        (t.data.drop (b * HISTORY_LEN)).take HISTORY_LEN = forced_series w := by
  have hlen : (all_data_series w).length = NUM_BATCHES * HISTORY_LEN := by
    show (listRepeat (forced_series w) NUM_BATCHES).length = _
    rw [length_listRepeat, length_forced_series]
  refine ⟨Tensor.new (all_data_series w) [NUM_BATCHES, HISTORY_LEN, 1],
    rfl, hlen, rfl, ?_, ?_⟩
  · show (all_data_series w).length = List.prod [NUM_BATCHES, HISTORY_LEN, 1]
    rw [hlen]; decide
  · intro b hb
    have hfl : (forced_series w).length = HISTORY_LEN := length_listResize _ _ _
    show ((listRepeat (forced_series w) NUM_BATCHES).drop (b * HISTORY_LEN)).take
      HISTORY_LEN = forced_series w
    rw [← hfl]
    exact slice_listRepeat (forced_series w) b NUM_BATCHES hb

/-- C3 witness: for the empty window, the buffer length equals the shape
product and batch slice 0 equals the forced series. -/
theorem encode_shape_and_batches_witness :
    ∃ t : Tensor Int, tensor_from_data_window (α := Int) ⟨[]⟩ = Except.ok t ∧
      t.data.length = t.dims.prod ∧
      (t.data.drop (0 * HISTORY_LEN)).take HISTORY_LEN =
        forced_series (α := Int) ⟨[]⟩ := by
  obtain ⟨t, h1, _, _, h4, h5⟩ := encode_shape_and_batches (α := Int) ⟨[]⟩
  exact ⟨t, h1, h4, h5 0 (by decide)⟩

theorem decode_ok {α : Type} (t : Tensor α)
    (h : t.data.length = NUM_BATCHES * PREDICTION_LEN) :
    inference_result_from_tensor t =
      Except.ok (InferenceResult.PredictedValues
        ((t.data.take PREDICTION_LEN).map
          fun v => DataPoint.mk none (Value.Number v) none)) := by
  unfold inference_result_from_tensor tryIntoBatches
  rw [if_pos h]
  rfl

theorem decode_error {α : Type} (t : Tensor α)
    (h : t.data.length ≠ NUM_BATCHES * PREDICTION_LEN) :
    inference_result_from_tensor t = Except.error shapeMismatch := by
  unfold inference_result_from_tensor tryIntoBatches
  rw [if_neg h]
  rfl

/-- C4: for every well-shaped output tensor (buffer length
`NUM_BATCHES * PREDICTION_LEN`) the decoder returns exactly
`PREDICTION_LEN` predicted points whose values are the values of batch 0
(the first `PREDICTION_LEN` buffer entries) in order, each with absent
timestamp and absent quality; and the bytes of batches 1–15 have no effect:
any other well-shaped tensor agreeing on batch 0 decodes identically. -/
theorem decode_batch_zero {α : Type} (t : Tensor α)
    (h : t.data.length = NUM_BATCHES * PREDICTION_LEN) :
    (∃ pts : List (DataPoint α),
      inference_result_from_tensor t =
        Except.ok (InferenceResult.PredictedValues pts) ∧
      pts.length = PREDICTION_LEN ∧
      pts = (t.data.take PREDICTION_LEN).map
        (fun v => DataPoint.mk none (Value.Number v) none) ∧
      ∀ p ∈ pts, p.timestamp = none ∧ p.quality = none) ∧
    (∀ u : Tensor α, u.data.length = NUM_BATCHES * PREDICTION_LEN →
      u.data.take PREDICTION_LEN = t.data.take PREDICTION_LEN →
      inference_result_from_tensor u = inference_result_from_tensor t) := by
  constructor
  · refine ⟨(t.data.take PREDICTION_LEN).map
      (fun v => DataPoint.mk none (Value.Number v) none),
      decode_ok t h, ?_, rfl, ?_⟩
    · rw [List.length_map, List.length_take, h]
      show min PREDICTION_LEN (NUM_BATCHES * PREDICTION_LEN) = PREDICTION_LEN
      decide
    · intro p hp
      obtain ⟨v, _, rfl⟩ := List.mem_map.mp hp
      exact ⟨rfl, rfl⟩
  · intro u hu htake
    rw [decode_ok u hu, decode_ok t h, htake]

/-- C4 witness: the concrete tensor `0..383` of shape `[16,24,1]` decodes
to 24 predicted points. -/
theorem decode_batch_zero_witness :
    tensor384.data.length = NUM_BATCHES * PREDICTION_LEN ∧
    ∃ pts : List (DataPoint Int),
      inference_result_from_tensor tensor384 =
        Except.ok (InferenceResult.PredictedValues pts) ∧
      pts.length = PREDICTION_LEN :=
  ⟨by decide,
    ((decode_batch_zero tensor384 (by decide)).1).elim
      fun pts hp => ⟨pts, hp.1, hp.2.1⟩⟩

/-- C5: the decoder fails iff the output buffer length differs from
`NUM_BATCHES * PREDICTION_LEN = 384`; on failure the result is the
shape-mismatch error (no partial result), and once the length matches it
always succeeds. -/
theorem decode_fails_iff_bad_shape {α : Type} (t : Tensor α) :
    ((∃ e, inference_result_from_tensor t = Except.error e) ↔
      t.data.length ≠ NUM_BATCHES * PREDICTION_LEN) ∧
    (t.data.length ≠ NUM_BATCHES * PREDICTION_LEN →
      inference_result_from_tensor t = Except.error shapeMismatch) ∧
    (t.data.length = NUM_BATCHES * PREDICTION_LEN →
      ∃ r, inference_result_from_tensor t = Except.ok r) := by
  by_cases hc : t.data.length = NUM_BATCHES * PREDICTION_LEN
  · refine ⟨⟨?_, fun hne => absurd hc hne⟩, fun hne => absurd hc hne,
      fun _ => ⟨_, decode_ok t hc⟩⟩
    rintro ⟨e, he⟩
    rw [decode_ok t hc] at he
    exact absurd he (by simp)
  · exact ⟨⟨fun _ => hc, fun _ => ⟨shapeMismatch, decode_error t hc⟩⟩,
      fun _ => decode_error t hc, fun heq => absurd heq hc⟩

/-- C5 witness: the length-100 tensor fails with the shape-mismatch error,
and the length-384 tensor succeeds. -/
theorem decode_fails_iff_bad_shape_witness :
    tensor100.data.length ≠ NUM_BATCHES * PREDICTION_LEN ∧
    inference_result_from_tensor tensor100 = Except.error shapeMismatch ∧
    ∃ r, inference_result_from_tensor tensor384 = Except.ok r :=
  ⟨by decide, (decode_fails_iff_bad_shape tensor100).2.1 (by decide),
    (decode_fails_iff_bad_shape tensor384).2.2 (by decide)⟩

theorem except_bind_ok {ε β γ : Type} (a : β) (f : β → Except ε γ) :
    Except.bind (Except.ok a) f = f a :=
  rfl

theorem except_bind_error {ε β γ : Type} (e : ε) (f : β → Except ε γ) :
    Except.bind (Except.error e) f = Except.error e :=
  rfl

/-- The orchestrator as an explicit bind chain; the encoding step is
infallible, so its tensor is already in place. -/
theorem handle_data_eq {α G C : Type} [Zero α] (bk : Backend α G C)
    (input : DataWindow α) :
    handle_data bk input =
      Except.bind bk.buildGraph (fun graph =>
        Except.bind (bk.initExecutionContext graph) (fun ctx =>
          Except.bind (bk.run ctx (Tensor.new (all_data_series input)
              [NUM_BATCHES, HISTORY_LEN, 1]))
            (fun output_tensor => inference_result_from_tensor output_tensor))) :=
  rfl

theorem tensor_eq_of_ok {α : Type} [Zero α] (input : DataWindow α)
    (t : Tensor α) (ht : tensor_from_data_window input = Except.ok t) :
    Tensor.new (all_data_series input) [NUM_BATCHES, HISTORY_LEN, 1] = t := by
  have h : Except.ok (ε := ErrorCode) (Tensor.new (all_data_series input)
      [NUM_BATCHES, HISTORY_LEN, 1]) = Except.ok t := ht
  injection h

/-- C6: the orchestrator short-circuits on the first failing step — a graph
build, execution-context, invocation, or decode failure is returned
directly as that step's error — and it returns a successful
InferenceResult iff every step succeeds (encoding itself never fails). -/
theorem pipeline_short_circuit {α G C : Type} [Zero α] (bk : Backend α G C)
    (input : DataWindow α) :
    (∀ e, bk.buildGraph = Except.error e →
      handle_data bk input = Except.error e) ∧
    (∀ g e, bk.buildGraph = Except.ok g →
      bk.initExecutionContext g = Except.error e →
      handle_data bk input = Except.error e) ∧
    (∀ g c t e, bk.buildGraph = Except.ok g →
      bk.initExecutionContext g = Except.ok c →
      tensor_from_data_window input = Except.ok t →
      bk.run c t = Except.error e →
      handle_data bk input = Except.error e) ∧
    (∀ g c t out e, bk.buildGraph = Except.ok g →
      bk.initExecutionContext g = Except.ok c →
      tensor_from_data_window input = Except.ok t →
      bk.run c t = Except.ok out →
      inference_result_from_tensor out = Except.error e →
      handle_data bk input = Except.error e) ∧
    (∀ r, handle_data bk input = Except.ok r ↔
      ∃ g c t out, bk.buildGraph = Except.ok g ∧
        bk.initExecutionContext g = Except.ok c ∧
        tensor_from_data_window input = Except.ok t ∧
        bk.run c t = Except.ok out ∧
        inference_result_from_tensor out = Except.ok r) := by
  refine ⟨?_, ?_, ?_, ?_, ?_⟩
  · intro e he
    rw [handle_data_eq, he, except_bind_error]
  · intro g e hg he
    rw [handle_data_eq, hg, except_bind_ok, he, except_bind_error]
  · intro g c t e hg hc ht he
    obtain rfl := tensor_eq_of_ok input t ht
    rw [handle_data_eq, hg, except_bind_ok, hc, except_bind_ok, he,
      except_bind_error]
  · intro g c t out e hg hc ht hrun hdec
    obtain rfl := tensor_eq_of_ok input t ht
    rw [handle_data_eq, hg, except_bind_ok, hc, except_bind_ok, hrun,
      except_bind_ok, hdec]
  · intro r
    constructor
    · intro hok
      rw [handle_data_eq] at hok
      cases hbg : bk.buildGraph with
      | error e => rw [hbg, except_bind_error] at hok; exact Except.noConfusion hok
      | ok g =>
        rw [hbg, except_bind_ok] at hok
        cases hic : bk.initExecutionContext g with
        | error e => rw [hic, except_bind_error] at hok; exact Except.noConfusion hok
        | ok c =>
          rw [hic, except_bind_ok] at hok
          cases hrun : bk.run c (Tensor.new (all_data_series input)
              [NUM_BATCHES, HISTORY_LEN, 1]) with
          | error e =>
              rw [hrun, except_bind_error] at hok
              exact Except.noConfusion hok
          | ok out =>
            rw [hrun, except_bind_ok] at hok
            exact ⟨g, c, Tensor.new (all_data_series input)
              [NUM_BATCHES, HISTORY_LEN, 1], out, rfl, hic, rfl, hrun, hok⟩
    · rintro ⟨g, c, t, out, hbg, hic, ht, hrun, hdec⟩
      obtain rfl := tensor_eq_of_ok input t ht
      rw [handle_data_eq, hbg, except_bind_ok, hic, except_bind_ok, hrun,
        except_bind_ok, hdec]

/-- C6 witness: with a backend whose graph build fails, the pipeline
returns exactly that error on the empty window. -/
theorem pipeline_short_circuit_witness :
    handle_data failingBackend ⟨[]⟩ =
      Except.error (ErrorCode.InternalError (some "model file missing")) :=
  (pipeline_short_circuit failingBackend ⟨[]⟩).1
    (ErrorCode.InternalError (some "model file missing")) rfl

/-- C8: the handler struct has no fields, so a call leaves it unchanged and
re-running the pipeline on an identical DataWindow with the same (fixed,
deterministic) backend yields an identical result: no hidden state is
carried between the two calls. -/
theorem pipeline_idempotent {α G C : Type} [Zero α] (h : HttpHandler)
    (bk : Backend α G C) (input : DataWindow α) :
    (HttpHandler.handleData h bk input).1 = h ∧
    (HttpHandler.handleData (HttpHandler.handleData h bk input).1 bk input).2 =
      (HttpHandler.handleData h bk input).2 :=
  ⟨rfl, rfl⟩

/-- C10: `Component::handle` sets the response out-parameter exactly once,
and when acquiring the handler lock fails with message `e` it still sets a
response: the internal-error code with the descriptive message
`"Error locking state: " ++ e`; when the lock succeeds it sets whatever the
request handler returns. -/
theorem handle_sets_response_once {R : Type}
    (lockResult : Except String HttpHandler)
    (handleRequest : HttpHandler → Except ErrorCode R) :
    (Component.handle lockResult handleRequest).length = 1 ∧
    (∀ e, lockResult = Except.error e →
      Component.handle lockResult handleRequest =
        [Except.error (ErrorCode.InternalError
          (some ("Error locking state: " ++ e)))]) ∧
    (∀ hh, lockResult = Except.ok hh →
      Component.handle lockResult handleRequest = [handleRequest hh]) := by
  refine ⟨rfl, ?_, ?_⟩
  · intro e he
    unfold Component.handle
    rw [he]
  · intro hh hok
    unfold Component.handle
    rw [hok]

/-- C10 witness: a poisoned lock still produces the internal-error
response, set exactly once. -/
theorem handle_sets_response_once_witness :
    (Component.handle (R := Int) (Except.error "poisoned")
      (fun _ => Except.ok 0)).length = 1 ∧
    Component.handle (R := Int) (Except.error "poisoned")
        (fun _ => Except.ok 0) =
      [Except.error (ErrorCode.InternalError
        (some ("Error locking state: " ++ "poisoned")))] :=
  ⟨(handle_sets_response_once (R := Int) (Except.error "poisoned")
      (fun _ => Except.ok 0)).1,
    (handle_sets_response_once (R := Int) (Except.error "poisoned")
      (fun _ => Except.ok 0)).2.1 "poisoned" rfl⟩

end WasiNN
